import Mathlib

/-!
Verification of the Pixelar backend generation core against its source.

The definitions below are a shallow embedding of the JavaScript/TypeScript
sources:
  - src/dist/services/generation.service.js (prompt builder, Replicate
    gateway, Gemini fallback, orchestration),
  - src/dist/services/spritesheet.service.js (preset catalog, spritesheet
    generation),
  - the generation routes (quantity clamping) and the asset service
    (ownership-scoped lookups).

JavaScript strings are Lean String, JS arrays are List, optional/possibly
undefined values are Option, and the truthiness tests the source performs
on strings are made explicit. External I/O (HTTP responses, fetches of
image bytes) is passed in as explicit environment arguments, so every
function is executable on concrete inputs.
-/

set_option maxRecDepth 100000

/-- JS truthiness of a possibly absent string: undefined/null and the empty
string are falsy. -/
def jsStrTruthy : Option String → Bool
  | none => false
  | some s => !s.isEmpty

/-- Lowercasing as the source uses prompt.toLowerCase() (ASCII case fold per
character). -/
def toLowerStr (s : String) : String :=
  String.mk (s.data.map Char.toLower)

/-- JS hay.includes(needle): needle occurs contiguously in hay. -/
def strContains (hay needle : String) : Bool :=
  decide (needle.data <:+: hay.data)

/-- JS model.includes(c) for a single character. -/
def strHasChar (s : String) (c : Char) : Bool :=
  s.data.contains c

/-- generation.service.js wantsPartialCharacter (lines 24-35): the prompt,
lowercased, contains one of the nine partial-body markers. -/
def wantsPartialCharacter (prompt : String) : Bool :=
  let promptLower := toLowerStr prompt
  strContains promptLower "half body" ||
    strContains promptLower "half-body" ||
    strContains promptLower "upper body" ||
    strContains promptLower "above chest" ||
    strContains promptLower "portrait" ||
    strContains promptLower "bust" ||
    strContains promptLower "headshot" ||
    strContains promptLower "face only" ||
    strContains promptLower "torso"

/-- generation.service.js getImageDimensions (lines 12-22): the six-entry
aspect-ratio table with the 1024x1024 default. -/
def getImageDimensions (aspectRatio : String) : Nat × Nat :=
  if aspectRatio == "2:3" then (688, 1024)
  else if aspectRatio == "1:1" then (1024, 1024)
  else if aspectRatio == "9:16" then (576, 1024)
  else if aspectRatio == "4:3" then (1024, 768)
  else if aspectRatio == "3:2" then (1024, 688)
  else if aspectRatio == "16:9" then (1024, 576)
  else (1024, 1024)

/-- The parameters buildPrompt and the generators destructure from the
request. Defaults mirror the sprite route defaults (part_000 lines 56-58). -/
structure GenParams where
  prompt : String := ""
  type : String := "sprite"
  style : String := "pixel_art"
  viewpoint : String := "front"
  colors : List String := []
  dimensions : Option String := some "64x64"
  aspectRatio : String := "1:1"
  spriteType : String := "character"
  sceneType : String := "environment"
  quantity : Int := 2
  referenceImage : Option String := none
  poseImage : Option String := none
  removeBg : Bool := true
  tileX : Bool := false
  tileY : Bool := false
deriving DecidableEq

/-- The full-body clause of buildPrompt (generation.service.js line 54). -/
def fullBodyClause : String :=
  "IMPORTANT: Generate a FULL-BODY character showing the entire figure from head to feet. The character must be fully visible and standing, NOT cropped at the chest, waist, or knees. "

/-- Style preamble of buildPrompt (lines 41-46). -/
def stylePart (style : String) : String :=
  if style == "pixel_art" then
    "Create a pixel art style image. Use clear pixel boundaries, limited color palette, and retro game aesthetic. "
  else
    "Create a 2D flat style image with clean lines, solid colors, and modern vector-like appearance. "

/-- The conditional full-body insertion of buildPrompt (line 53): emitted only
for non-object sprites whose prompt does not ask for a partial character. -/
def fullBodyPart (params : GenParams) : String :=
  if params.spriteType != "object" && !wantsPartialCharacter params.prompt then
    fullBodyClause
  else ""

/-- Type preamble of buildPrompt (lines 48-60). -/
def typePart (params : GenParams) : String :=
  if params.type == "sprite" then
    let entityType := if params.spriteType == "object" then "object/item" else "character"
    "This is a game sprite " ++ entityType ++
      " that should be suitable for use in a 2D video game. " ++
      "The sprite should have a transparent or solid color background that can be easily removed. " ++
      fullBodyPart params
  else
    let envType := if params.sceneType == "indoor" then "indoor" else "outdoor"
    "This is an " ++ envType ++ " game scene or background environment for a 2D video game. "

/-- Viewpoint table of buildPrompt (lines 62-69), defaulting to the empty
string for unknown viewpoints. -/
def viewpointDescription (viewpoint : String) : String :=
  if viewpoint == "front" then "Show from a front-facing view. "
  else if viewpoint == "back" then "Show from behind/back view. "
  else if viewpoint == "side" then "Show from a side profile view. "
  else if viewpoint == "top_down" then "Show from a top-down/bird's eye view. "
  else if viewpoint == "isometric" then "Show in isometric perspective (45-degree angle). "
  else ""

/-- Aspect-ratio sentence of buildPrompt (lines 70-72). -/
def dimsPart (aspectRatio : String) : String :=
  let wh := getImageDimensions aspectRatio
  "The image should be " ++ toString wh.1 ++ "x" ++ toString wh.2 ++
    " pixels (" ++ aspectRatio ++ " aspect ratio). "

/-- Palette sentence of buildPrompt (lines 74-76): only when colors were
supplied. -/
def colorsPart (colors : List String) : String :=
  if colors.isEmpty then ""
  else "Use these colors prominently in the design: " ++ String.intercalate ", " colors ++ ". "

/-- Sprite-size hint of buildPrompt (lines 78-80): only for sprites with a
truthy dimensions string. -/
def dimensionHint (params : GenParams) : String :=
  match params.dimensions with
  | some d =>
    if !d.isEmpty && params.type == "sprite" then
      "The sprite should be designed to look good at " ++ d ++ " pixel dimensions. "
    else ""
  | none => ""

/-- generation.service.js buildPrompt (lines 37-86): the sequence of
appends, in source order. -/
def buildPrompt (params : GenParams) : String :=
  stylePart params.style ++
    typePart params ++
    viewpointDescription params.viewpoint ++
    dimsPart params.aspectRatio ++
    colorsPart params.colors ++
    dimensionHint params ++
    params.prompt ++
    " High quality, detailed, game-ready asset."

/-! ## Replicate provider gateway (generation.service.js callReplicate) -/

/-- The output field of a prediction: a JSON string, an array of strings, or
null/undefined. -/
inductive RepOutput where
  | str : String → RepOutput
  | arr : List String → RepOutput
  | nullOut : RepOutput
deriving DecidableEq

/-- A prediction as the gateway reads it back: status, output and optional
error text. -/
structure Prediction where
  status : String
  output : RepOutput := .nullOut
  error : Option String := none
deriving DecidableEq

/-- The environment of one submit-and-poll gateway call: whether the creation
POST was 2xx (with its status code and error body otherwise), and the
terminal prediction the polling loop ends on. -/
structure CallEnv where
  createOk : Bool := true
  createStatus : Nat := 200
  createBody : String := ""
  terminal : Prediction := { status := "succeeded" }
deriving DecidableEq

/-- JS e || d on strings: d when e is absent or empty. -/
def strOrDefault (e : Option String) (d : String) : String :=
  match e with
  | some s => if s.isEmpty then d else s
  | none => d

/-- The creation request callReplicate assembles (lines 110-123): target URL
and the optional version field of the body. -/
structure ReplicateCreateRequest where
  url : String
  version : Option String
deriving DecidableEq

/-- The generic creation endpoint of the polling provider. -/
def genericEndpoint : String := "https://api.replicate.com/v1/predictions"

/-- callReplicate endpoint selection (lines 110-123): an identifier with a
slash goes whole into the model-specific URL; otherwise the part after the
colon (or the whole identifier) becomes the version in the body. -/
def callReplicateEndpoint (model : String) : ReplicateCreateRequest :=
  if strHasChar model '/' then
    { url := "https://api.replicate.com/v1/models/" ++ model ++ "/predictions",
      version := none }
  else if strHasChar model ':' then
    { url := genericEndpoint, version := some ((model.splitOn ":").getD 1 "") }
  else
    { url := genericEndpoint, version := some model }

/-- callReplicate (lines 88-151) after the creation request: a non-2xx
creation response throws with status and body; a terminal failed prediction
throws its error text or a generic message; otherwise the output is
returned. -/
def callReplicate (env : CallEnv) : Except String RepOutput :=
  if !env.createOk then
    .error ("Replicate API error: " ++ toString env.createStatus ++ " - " ++ env.createBody)
  else if env.terminal.status == "failed" then
    .error (strOrDefault env.terminal.error "Replicate generation failed")
  else
    .ok env.terminal.output

/-! ## Polling loop (callReplicate lines 140-146, callReplicateAnimation
lines 73-79): both loops are the same while loop over prediction.status. -/

/-- A status is terminal when it is succeeded or failed. -/
def isTerminalStatus (s : String) : Bool :=
  s == "succeeded" || s == "failed"

/-- The polling while loop over the stream of responses: seq 0 is the
creation response, seq k for positive k the response of the k-th poll GET.
The loop returns the index of the response it stops on, so that index is
exactly the number of poll requests issued; fuel bounds the unbounded JS
loop, none meaning the loop is still running after fuel responses. -/
def pollLoop (seq : Nat → Prediction) : Nat → Nat → Option Nat
  | 0, _ => none
  | fuel + 1, i => if isTerminalStatus (seq i).status then some i else pollLoop seq fuel (i + 1)

/-! ## Prompt refinement stage (refinePromptWithIntelligence, lines 153-215) -/

/-- refinePromptWithIntelligence: on any throw from the gateway call the
stage catches and returns buildPrompt of the same context; on success the
output is joined (arrays) and an empty result falls back to the raw user
prompt. -/
def refinePromptWithIntelligence (userPrompt : String) (context : GenParams)
    (call : CallEnv) : String :=
  match callReplicate call with
  | .error _ => buildPrompt context
  | .ok output =>
    let result := match output with
      | .arr l => String.join l
      | .str s => s
      | .nullOut => ""
    if result.isEmpty then userPrompt else result

/-! ## Generation results and the image fetch loop -/

/-- The uniform result shape of the image generators. -/
structure GenResult where
  success : Bool
  images : List String := []
  provider : Option String := none
  error : Option String := none
deriving DecidableEq

/-- Wrap the try/catch of a generator body: a throw becomes
success:false with the message, a normal return success:true. -/
def runGen (provider : String) (m : Except String (List String)) : GenResult :=
  match m with
  | .ok imgs => { success := true, images := imgs, provider := some provider }
  | .error e => { success := false, images := [], error := some e, provider := some provider }

/-- JS Array.isArray(output) ? output : [output]: a lone string is wrapped,
null becomes the one-element array holding null. -/
def repToList (output : RepOutput) : List (Option String) :=
  match output with
  | .arr l => l.map some
  | .str s => [some s]
  | .nullOut => [none]

/-- The per-URL fetch-and-encode loop of the generators: fetchData maps a URL
to the data URL the source pushes (bytes fetched, base64 encoded, mime type
from the content-type header); fetching the null element throws. -/
def fetchImages (fetchData : String → Except String String) :
    List (Option String) → Except String (List String)
  | [] => .ok []
  | none :: _ => .error "Failed to parse URL from null"
  | some url :: rest =>
    match fetchData url with
    | .error e => .error e
    | .ok dataUrl =>
      match fetchImages fetchData rest with
      | .error e => .error e
      | .ok more => .ok (dataUrl :: more)

/-! ## generateWithReplicate (generation.service.js lines 236-310) -/

/-- The input generateWithReplicate builds for retro-diffusion/rd-plus
(lines 280-290). Only the claim-relevant fields are modelled; the
width/height computation (lines 261-279) is not referenced by any claim. -/
structure RdPlusInput where
  prompt : String
  num_images : Int
  style : String
  remove_bg : Bool
  tile_x : Bool
  tile_y : Bool
deriving DecidableEq

/-- Construction of the rd-plus input: num_images is the quantity exactly as
received in params. -/
def mkRdPlusInput (finalPrompt : String) (params : GenParams) : RdPlusInput :=
  { prompt := finalPrompt,
    num_images := params.quantity,
    style := if params.style.isEmpty then "default" else params.style,
    remove_bg := params.removeBg,
    tile_x := params.tileX,
    tile_y := params.tileY }

/-- The external world of one generateWithReplicate run: the outcome of the
intelligence-layer call, the outcome of the generation call (qwen when a
pose image is present, rd-plus otherwise), and the image fetches. -/
structure GenEnv where
  refineCall : CallEnv := {}
  genCall : CallEnv := {}
  fetchData : String → Except String String := fun _ => .ok "data:image/png;base64,x"

/-- The emptiness guard shared by generateWithReplicate (lines 301-303) and
generateWithGemini (lines 362-364): an empty image list throws. -/
def ensureNonEmptyImages (m : Except String (List String)) :
    Except String (List String) :=
  match m with
  | .error e => .error e
  | .ok images => if images.isEmpty then .error "No images generated" else .ok images

/-- The try body of generateWithReplicate: refine the prompt (failures inside
are absorbed by the refinement stage), call the provider once (pose-guided
qwen or standard rd-plus), fetch every output URL, and throw when no image
was produced. -/
def generateWithReplicateE (params : GenParams) (env : GenEnv) :
    Except String (List String) :=
  let finalPrompt := refinePromptWithIntelligence params.prompt params env.refineCall
  let fetched : Except String (List String) :=
    if jsStrTruthy params.poseImage then
      match callReplicate env.genCall with
      | .error e => .error e
      | .ok output => fetchImages env.fetchData (repToList output)
    else
      let _input := mkRdPlusInput finalPrompt params
      match callReplicate env.genCall with
      | .error e => .error e
      | .ok output => fetchImages env.fetchData (repToList output)
  ensureNonEmptyImages fetched

/-- generateWithReplicate with its catch: any throw becomes success:false. -/
def generateWithReplicate (params : GenParams) (env : GenEnv) : GenResult :=
  runGen "replicate" (generateWithReplicateE params env)

/-! ## generateWithGemini (lines 314-371) -/

/-- One Gemini generateContent response: HTTP ok flag, status code, and the
first inline image part as the data URL the source pushes, if any. -/
structure GeminiResp where
  ok : Bool := true
  status : Nat := 200
  imagePart : Option String := none
deriving DecidableEq

/-- The per-variation loop of generateWithGemini (lines 338-361): a non-ok
response throws; a response without an image part pushes nothing. -/
def geminiLoop (resps : Nat → GeminiResp) : Nat → Nat → Except String (List String)
  | 0, _ => .ok []
  | n + 1, i =>
    let resp := resps i
    if !resp.ok then .error ("Gemini API error: " ++ toString resp.status)
    else
      match resp.imagePart, geminiLoop resps n (i + 1) with
      | _, .error e => .error e
      | some img, .ok more => .ok (img :: more)
      | none, .ok more => .ok more

/-- The try body of generateWithGemini: the loop runs quantity times (zero
times for a non-positive quantity) and an empty image list throws. -/
def generateWithGeminiE (params : GenParams) (resps : Nat → GeminiResp) :
    Except String (List String) :=
  ensureNonEmptyImages (geminiLoop resps params.quantity.toNat 0)

/-- generateWithGemini with its catch. -/
def generateWithGemini (params : GenParams) (resps : Nat → GeminiResp) : GenResult :=
  runGen "gemini" (generateWithGeminiE params resps)

/-! ## Provider selection (generateImages, lines 375-407) -/

/-- Which path the orchestrator takes. -/
inductive ProviderChoice where
  | geminiOwn
  | replicateOwn
  | replicatePlatform
  | geminiPlatform
  | noCredential
deriving DecidableEq

/-- The options object of the generation entry points. -/
structure GenOptions where
  apiKey : Option String := none
  provider : Option String := none
  useOwnKey : Bool := false
deriving DecidableEq

/-- The process environment variables the service reads. -/
structure PlatformEnv where
  replicateApiToken : Option String := none
  replicateModelId : Option String := none
  geminiApiKey : Option String := none
deriving DecidableEq

/-- The provider selection of generateImages (and, identically, of
generateAnimationFrames): own key with provider gemini, own key otherwise,
platform Replicate token, platform Gemini key unless it is the placeholder,
else no credential. -/
def selectProvider (opts : GenOptions) (penv : PlatformEnv) : ProviderChoice :=
  if opts.useOwnKey && jsStrTruthy opts.apiKey then
    if opts.provider == some "gemini" then .geminiOwn else .replicateOwn
  else if jsStrTruthy penv.replicateApiToken then .replicatePlatform
  else if jsStrTruthy penv.geminiApiKey && penv.geminiApiKey != some "your_gemini_api_key_here" then
    .geminiPlatform
  else .noCredential

/-- The terminal configuration failure of generateImages (lines 402-406). -/
def noKeyResult : GenResult :=
  { success := false, images := [],
    error := some "No API key configured. Please add your own API key in settings or contact support." }

/-- generateImages: dispatch on the selected provider; with no credential the
constant error result is returned and no provider environment is consulted. -/
def generateImages (params : GenParams) (opts : GenOptions) (penv : PlatformEnv)
    (env : GenEnv) (gemini : Nat → GeminiResp) : GenResult :=
  match selectProvider opts penv with
  | .geminiOwn => generateWithGemini params gemini
  | .replicateOwn => generateWithReplicate params env
  | .replicatePlatform => generateWithReplicate params env
  | .geminiPlatform => generateWithGemini params gemini
  | .noCredential => noKeyResult

/-! ## Animation frame generation (lines 439-607) -/

/-- The uniform result shape of the frame generators. -/
structure FramesResult where
  success : Bool
  frames : List String := []
  provider : Option String := none
  error : Option String := none
deriving DecidableEq

/-- Wrap the try/catch of a frame generator body. -/
def runFrames (provider : String) (m : Except String (List String)) : FramesResult :=
  match m with
  | .ok frames => { success := true, frames := frames, provider := some provider }
  | .error e => { success := false, frames := [], error := some e, provider := some provider }

/-- One per-frame Replicate prediction of generateAnimationWithReplicate:
creation response and the terminal prediction of its polling loop. -/
structure FrameJob where
  createOk : Bool := true
  createStatus : Nat := 200
  terminal : Prediction := { status := "succeeded" }
deriving DecidableEq

/-- Lines 508-517: a frame is kept only when result.output is truthy and the
normalized array is non-empty; its first element is fetched. -/
def animOutputHead (output : RepOutput) : Option String :=
  match output with
  | .nullOut => none
  | .str s => if s.isEmpty then none else some s
  | .arr l => l.head?

/-- The per-frame loop of generateAnimationWithReplicate (lines 475-518):
jobs gives the prediction of each frame index, the first argument counts the
remaining frames. A non-ok creation throws with the status; a terminal
failed prediction throws the fixed frame message; a succeeded prediction
with no usable output is skipped silently. -/
def replicateAnimLoop (fetchData : String → Except String String)
    (jobs : Nat → FrameJob) : Nat → Nat → Except String (List String)
  | 0, _ => .ok []
  | n + 1, i =>
    let job := jobs i
    if !job.createOk then .error ("Replicate API error: " ++ toString job.createStatus)
    else if job.terminal.status == "failed" then
      .error ("Frame " ++ toString (i + 1) ++ " generation failed")
    else
      match animOutputHead job.terminal.output with
      | none => replicateAnimLoop fetchData jobs n (i + 1)
      | some url =>
        match fetchData url with
        | .error e => .error e
        | .ok dataUrl =>
          match replicateAnimLoop fetchData jobs n (i + 1) with
          | .error e => .error e
          | .ok more => .ok (dataUrl :: more)

/-- generateAnimationWithReplicate (lines 470-525): run the loop over all
frames with its catch; note the absence of an emptiness check before
success:true. -/
def generateAnimationWithReplicate (fetchData : String → Except String String)
    (jobs : Nat → FrameJob) (totalFrames : Nat) : FramesResult :=
  runFrames "replicate" (replicateAnimLoop fetchData jobs totalFrames 0)

/-- The per-frame loop of generateAnimationWithGemini (lines 540-572): a
non-ok response or a response without an image part throws. -/
def geminiAnimLoop (resps : Nat → GeminiResp) : Nat → Nat → Except String (List String)
  | 0, _ => .ok []
  | n + 1, i =>
    let resp := resps i
    if !resp.ok then
      .error ("Failed to generate frame " ++ toString (i + 1) ++ ": " ++ toString resp.status)
    else
      match resp.imagePart with
      | none => .error ("No image generated for frame " ++ toString (i + 1))
      | some img =>
        match geminiAnimLoop resps n (i + 1) with
        | .error e => .error e
        | .ok more => .ok (img :: more)

/-- generateAnimationWithGemini (lines 526-579): charOk abstracts whether
characterImage parses as a data URL (the startsWith/regex check of lines
530-539); an unparseable image throws before any frame is generated. -/
def generateAnimationWithGemini (charOk : Bool) (totalFrames : Nat)
    (resps : Nat → GeminiResp) : FramesResult :=
  runFrames "gemini"
    (if !charOk then .error "Invalid character image format"
     else geminiAnimLoop resps totalFrames 0)

/-- The parameters of generateAnimationFrames. -/
structure AnimParams where
  characterImage : String := "data:image/png;base64,abc"
  viewType : String := "isometric"
  direction : String := "right"
  animationType : String := "walk"
  frameDescriptions : List String := []
deriving DecidableEq

/-- generateAnimationFrames (lines 580-607): the same provider selection as
generateImages, dispatching to the frame generators; with no credential the
constant error result is returned. -/
def generateAnimationFrames (params : AnimParams) (opts : GenOptions) (penv : PlatformEnv)
    (fetchData : String → Except String String) (jobs : Nat → FrameJob)
    (charOk : Bool) (gemini : Nat → GeminiResp) : FramesResult :=
  match selectProvider opts penv with
  | .geminiOwn => generateAnimationWithGemini charOk params.frameDescriptions.length gemini
  | .replicateOwn => generateAnimationWithReplicate fetchData jobs params.frameDescriptions.length
  | .replicatePlatform => generateAnimationWithReplicate fetchData jobs params.frameDescriptions.length
  | .geminiPlatform => generateAnimationWithGemini charOk params.frameDescriptions.length gemini
  | .noCredential =>
    { success := false, frames := [],
      error := some "No API key configured. Please add your own API key in settings." }

/-! ## generateDirectAnimation (lines 608-702) -/

/-- JS v || d on integers: 0 is falsy and becomes d, every other integer
(negative ones included) is kept. -/
def jsIntOr (v d : Int) : Int :=
  if v == 0 then d else v

/-- The parameters of generateDirectAnimation. Defaults mirror the
direct-animation route (part_000 line 548). -/
structure DirectAnimParams where
  prompt : String := ""
  style : String := "four_angle_walking"
  width : Int := 48
  height : Int := 48
  quantity : Int := 1
  seed : Option Int := none
  input_image : Option String := none
  return_spritesheet : Bool := true
  bypass_prompt_expansion : Bool := false
deriving DecidableEq

/-- The token resolution of generateDirectAnimation (lines 611-614): the own
key only when useOwnKey holds and the key is truthy, else the platform
Replicate token. -/
def directAnimationToken (opts : GenOptions) (penv : PlatformEnv) : Option String :=
  if !opts.useOwnKey || !jsStrTruthy opts.apiKey then penv.replicateApiToken else opts.apiKey

/-- The mock context generateDirectAnimation hands the refinement stage
(lines 627-633). -/
def directAnimationContext (params : DirectAnimParams) : GenParams :=
  { prompt := params.prompt,
    type := "sprite",
    spriteType := "character",
    style := if params.style.isEmpty then "pixel_art" else params.style,
    viewpoint := "isometric",
    aspectRatio := "1:1",
    colors := [], dimensions := none, sceneType := "", quantity := 1 }

/-- The per-sheet loop of generateDirectAnimation (lines 640-695): one
gateway call per sheet, every output URL fetched; no emptiness check
follows the loop. -/
def directAnimLoop (calls : Nat → CallEnv) (fetchData : String → Except String String) :
    Nat → Nat → Except String (List String)
  | 0, _ => .ok []
  | n + 1, i =>
    match callReplicate (calls i) with
    | .error e => .error e
    | .ok output =>
      match fetchImages fetchData (repToList output) with
      | .error e => .error e
      | .ok imgs =>
        match directAnimLoop calls fetchData n (i + 1) with
        | .error e => .error e
        | .ok more => .ok (imgs ++ more)

/-- The try body of generateDirectAnimation: optional refinement (absorbed
failures), then quantity-many sheet generations where a zero quantity is
coerced to one by the JS or-default. -/
def generateDirectAnimationE (params : DirectAnimParams) (refineCall : CallEnv)
    (calls : Nat → CallEnv) (fetchData : String → Except String String) :
    Except String (List String) :=
  let _finalPrompt :=
    if !params.bypass_prompt_expansion then
      refinePromptWithIntelligence params.prompt (directAnimationContext params) refineCall
    else params.prompt
  directAnimLoop calls fetchData (jsIntOr params.quantity 1).toNat 0

/-- generateDirectAnimation (lines 608-702): token resolution, the constant
no-key failure, and the try/catch around the sheet loop. -/
def generateDirectAnimation (params : DirectAnimParams) (opts : GenOptions)
    (penv : PlatformEnv) (refineCall : CallEnv) (calls : Nat → CallEnv)
    (fetchData : String → Except String String) : GenResult :=
  if !jsStrTruthy (directAnimationToken opts penv) then
    { success := false, images := [], error := some "No API key configured." }
  else
    runGen "replicate" (generateDirectAnimationE params refineCall calls fetchData)

/-! ## Route-level quantity clamping (part_000 lines 74, 227, 560) -/

/-- Math.min(quantity, 4) as the sprite, scene and direct-animation routes
apply it before calling the services. -/
def routeQuantity (quantity : Int) : Int :=
  min quantity 4

/-- The num_images field sent to rd-plus for a caller-requested quantity:
the route clamp followed by the untouched pass-through of
mkRdPlusInput. -/
def numImagesSent (requested : Int) : Int :=
  (mkRdPlusInput "" { quantity := routeQuantity requested }).num_images

/-- The number of per-image Gemini calls for a caller-requested quantity:
the loop of generateWithGeminiE runs quantity.toNat times. -/
def geminiCallCount (requested : Int) : Nat :=
  ({ quantity := routeQuantity requested : GenParams }).quantity.toNat

/-- The number of sheet iterations generateDirectAnimation runs for a
caller-requested quantity: route clamp, then the JS or-default of
generateDirectAnimationE. -/
def directAnimationSheetCount (requested : Int) : Nat :=
  (jsIntOr (routeQuantity requested) 1).toNat

/-! ## Spritesheet service (spritesheet.service.js) -/

/-- One entry of the static preset catalog. -/
structure AnimationPreset where
  id : String
  name : String
  description : String
  style : String
  width : Nat
  height : Nat
  frameCount : Nat
  recommended : Bool
deriving DecidableEq

/-- spritesheet.service.js ANIMATION_PRESETS (lines 12-53). -/
def ANIMATION_PRESETS : List AnimationPreset :=
  [{ id := "four_angle_walking",
     name := "4-Direction Walking",
     description := "Consistent 4-direction, 4-frame walking animation for humanoid characters",
     style := "four_angle_walking",
     width := 48, height := 48, frameCount := 16, recommended := true },
   { id := "walking_and_idle",
     name := "Walking & Idle",
     description := "Consistent 4-direction walking and idle animations",
     style := "walking_and_idle",
     width := 48, height := 48, frameCount := 24, recommended := true },
   { id := "small_sprites",
     name := "Small Sprite Actions",
     description := "4-direction 32x32 sprites with various actions (walking, arm movement, looking, surprised, laying down)",
     style := "small_sprites",
     width := 32, height := 32, frameCount := 16, recommended := false },
   { id := "vfx",
     name := "Visual Effects",
     description := "Visual effects animations (24x24 to 96x96)",
     style := "vfx",
     width := 64, height := 64, frameCount := 8, recommended := false }]

/-- getAnimationPreset (lines 186-188): find by id in the catalog. -/
def getAnimationPreset (id : String) : Option AnimationPreset :=
  ANIMATION_PRESETS.find? (fun p => p.id == id)

/-- callReplicateAnimation (lines 55-84): the same submit-and-poll gateway
with the animation default error message. -/
def callReplicateAnimation (env : CallEnv) : Except String RepOutput :=
  if !env.createOk then
    .error ("Replicate API error: " ++ toString env.createStatus ++ " - " ++ env.createBody)
  else if env.terminal.status == "failed" then
    .error (strOrDefault env.terminal.error "Animation generation failed")
  else
    .ok env.terminal.output

/-- The parameters of generateSpritesheet. -/
structure SpritesheetParams where
  animationPresetId : String := ""
  characterImageUrl : String := ""
  customPrompt : Option String := none
  customWidth : Option Nat := none
  customHeight : Option Nat := none
deriving DecidableEq

/-- JS v || d on an optional number: undefined and 0 are falsy. -/
def natOr (v : Option Nat) (d : Nat) : Nat :=
  match v with
  | some n => if n == 0 then d else n
  | none => d

/-- The result shape of generateSpritesheet. -/
structure SpritesheetResult where
  success : Bool
  spritesheetUrl : Option String := none
  frameCount : Nat := 0
  frameWidth : Nat := 0
  frameHeight : Nat := 0
  layout : String := "horizontal"
  error : Option String := none
deriving DecidableEq

/-- The success record of generateSpritesheet (lines 127-136), with the
layout rule frameCount > 8 to grid. -/
def okSheet (url : Option String) (preset : AnimationPreset) (width height : Nat) :
    SpritesheetResult :=
  { success := true, spritesheetUrl := url, frameCount := preset.frameCount,
    frameWidth := width, frameHeight := height,
    layout := if preset.frameCount > 8 then "grid" else "horizontal" }

/-- generateSpritesheet (lines 88-149). The second component records whether
the provider gateway was invoked: an unknown preset id throws before any
network call. The seed argument stands for the Math.random draw. -/
def generateSpritesheet (params : SpritesheetParams) (env : CallEnv) (seed : Nat) :
    SpritesheetResult × Bool :=
  match getAnimationPreset params.animationPresetId with
  | none =>
    ({ success := false,
       error := some ("Invalid animation preset: " ++ params.animationPresetId) }, false)
  | some preset =>
    let width := natOr params.customWidth preset.width
    let height := natOr params.customHeight preset.height
    let _prompt := strOrDefault params.customPrompt
      ("pixel art character sprite, " ++ toLowerStr preset.name)
    let _seed := seed
    match callReplicateAnimation env with
    | .error e => ({ success := false, error := some e }, true)
    | .ok output =>
      match output with
      | .str s => (okSheet (some s) preset width height, true)
      | .arr l => (okSheet l.head? preset width height, true)
      | .nullOut =>
        ({ success := false, error := some "Unexpected output format from rd-animation" }, true)

/-! ## Asset service (part_002, AssetService) -/

/-- The fields of a stored asset document the claims touch. -/
structure AssetDoc where
  user_id : String
  name : String := ""
  status : String := "active"
deriving DecidableEq

namespace AssetService

/-- AssetService.findById (part_002 lines 14-22): a missing document gives
null; a truthy userId that differs from the stored user_id gives null;
otherwise the document with its id. -/
def findById (store : String → Option AssetDoc) (id : String) (userId : String) :
    Option (String × AssetDoc) :=
  match store id with
  | none => none
  | some data =>
    if !userId.isEmpty && data.user_id != userId then none else some (id, data)

/-- AssetService.update (lines 107-136): findById gates the write; a null
lookup throws Asset not found, otherwise the document is updated in place.
Only the name update is modelled. -/
def update (store : String → Option AssetDoc) (id : String) (userId : String)
    (newName : Option String) : Except String (String → Option AssetDoc) :=
  match findById store id userId with
  | none => .error "Asset not found"
  | some _ =>
    .ok (fun k =>
      if k == id then (store k).map (fun d => { d with name := newName.getD d.name })
      else store k)

/-- AssetService.delete (lines 140-148), the soft delete: findById gates it;
a null lookup throws Asset not found, otherwise status becomes deleted. -/
def delete (store : String → Option AssetDoc) (id : String) (userId : String) :
    Except String (String → Option AssetDoc) :=
  match findById store id userId with
  | none => .error "Asset not found"
  | some _ =>
    .ok (fun k =>
      if k == id then (store k).map (fun d => { d with status := "deleted" })
      else store k)

end AssetService

/-! ## Helper lemmas -/

/-- A string returned by the JS or-default is nonempty when the default is. -/
theorem strOrDefault_ne_empty (e : Option String) (d : String) (hd : d ≠ "") :
    strOrDefault e d ≠ "" := by
  unfold strOrDefault
  cases e with
  | none => exact hd
  | some s =>
    by_cases hs : s.isEmpty
    · simp [hs, hd]
    · simp only [hs, Bool.false_eq_true, if_false]
      intro he
      rw [he] at hs
      exact hs rfl

/-- An infix of a string stays an infix after prepending. -/
theorem infix_data_left (c a b : String) (h : c.data <:+: b.data) :
    c.data <:+: (a ++ b).data := by
  rw [String.data_append]
  exact h.trans (List.suffix_append a.data b.data).isInfix

/-- An infix of a string stays an infix after appending. -/
theorem infix_data_right (c a b : String) (h : c.data <:+: a.data) :
    c.data <:+: (a ++ b).data := by
  rw [String.data_append]
  exact h.trans (List.prefix_append a.data b.data).isInfix

/-- Soundness half of the polling loop: a returned index is at or past the
start, terminal, and the first terminal index from the start. -/
theorem pollLoop_some_spec (seq : Nat → Prediction) :
    ∀ (fuel k i : Nat), pollLoop seq fuel k = some i →
      k ≤ i ∧ isTerminalStatus (seq i).status = true ∧
        ∀ j, k ≤ j → j < i → isTerminalStatus (seq j).status = false := by
  intro fuel
  induction fuel with
  | zero => intro k i h; simp [pollLoop] at h
  | succ n ih =>
    intro k i h
    by_cases ht : isTerminalStatus (seq k).status = true
    · rw [pollLoop, if_pos ht] at h
      obtain rfl : k = i := Option.some.inj h
      exact ⟨Nat.le_refl k, ht, fun j hkj hji => absurd (Nat.lt_of_le_of_lt hkj hji) (Nat.lt_irrefl k)⟩
    · have ht' : isTerminalStatus (seq k).status = false := by
        cases hb : isTerminalStatus (seq k).status
        · rfl
        · exact absurd hb ht
      rw [pollLoop, if_neg ht] at h
      obtain ⟨hki, hterm, hall⟩ := ih (k + 1) i h
      refine ⟨Nat.le_of_succ_le hki, hterm, ?_⟩
      intro j hkj hji
      rcases Nat.eq_or_lt_of_le hkj with heq | hlt
      · exact heq ▸ ht'
      · exact hall j hlt hji

/-- Completeness half of the polling loop: with enough fuel the loop stops
exactly on the first terminal response. -/
theorem pollLoop_complete (seq : Nat → Prediction) :
    ∀ (fuel k n : Nat), k ≤ n → n < k + fuel →
      (∀ j, k ≤ j → j < n → isTerminalStatus (seq j).status = false) →
      isTerminalStatus (seq n).status = true →
      pollLoop seq fuel k = some n := by
  intro fuel
  induction fuel with
  | zero => intro k n hkn hlt _ _; omega
  | succ m ih =>
    intro k n hkn hlt hall hterm
    rcases Nat.eq_or_lt_of_le hkn with heq | hklt
    · rw [pollLoop, if_pos (heq ▸ hterm)]
      rw [heq]
    · have hkt : isTerminalStatus (seq k).status = false := hall k (Nat.le_refl k) hklt
      have hkt' : ¬isTerminalStatus (seq k).status = true := by simp [hkt]
      rw [pollLoop, if_neg hkt']
      exact ih (k + 1) n hklt (by omega) (fun j hj hjn => hall j (Nat.le_of_succ_le hj) hjn) hterm

/-! ## Claim theorems -/

/-- C8: the job polling loop (shared by callReplicate and
callReplicateAnimation) stops at the first response whose status is
succeeded or failed: whenever it returns the response of index i, that
response is terminal and every earlier response was non-terminal (so the
loop issued exactly i poll requests after the creation response and none
past the terminal one); conversely, while statuses are non-terminal it
keeps polling, stopping exactly on the first terminal response when one
arrives within the fuel bound. -/
theorem pollLoop_stops_at_first_terminal :
    (∀ (seq : Nat → Prediction) (fuel i : Nat), pollLoop seq fuel 0 = some i →
       isTerminalStatus (seq i).status = true ∧
         ∀ j, j < i → isTerminalStatus (seq j).status = false) ∧
    (∀ (seq : Nat → Prediction) (fuel n : Nat), n < fuel →
       (∀ j, j < n → isTerminalStatus (seq j).status = false) →
       isTerminalStatus (seq n).status = true →
       pollLoop seq fuel 0 = some n) := by
  constructor
  · intro seq fuel i h
    obtain ⟨_, hterm, hall⟩ := pollLoop_some_spec seq fuel 0 i h
    exact ⟨hterm, fun j hj => hall j (Nat.zero_le j) hj⟩
  · intro seq fuel n hfuel hall hterm
    exact pollLoop_complete seq fuel 0 n (Nat.zero_le n) (by omega)
      (fun j _ hj => hall j hj) hterm

/-- C5: whenever the refinement gateway call fails (transport error, non-2xx
creation, failed job), refinePromptWithIntelligence does not raise and
returns exactly the deterministic Prompt Builder output for the same
context. -/
theorem refine_failure_falls_back (userPrompt : String) (context : GenParams)
    (call : CallEnv) {e : String} (h : callReplicate call = .error e) :
    refinePromptWithIntelligence userPrompt context call = buildPrompt context := by
  unfold refinePromptWithIntelligence
  rw [h]

/-- C5 witness: a refinement call whose creation request was rejected falls
back to the Prompt Builder output at a concrete input. -/
theorem refine_failure_falls_back_witness :
    refinePromptWithIntelligence "a knight" {} { createOk := false } = buildPrompt {} :=
  refine_failure_falls_back "a knight" {} { createOk := false } rfl

/-- C3 counterexample: the identifier owner/name:abc contains a slash, so
callReplicate posts it whole to the model-specific endpoint with no version
in the body, not to the generic endpoint with the version in the body as
the claim states for the namespace/name:version form. -/
theorem replicate_endpoint_slash_colon_cex :
    callReplicateEndpoint "owner/name:abc" =
      { url := "https://api.replicate.com/v1/models/owner/name:abc/predictions",
        version := none } ∧
    (callReplicateEndpoint "owner/name:abc").url ≠ genericEndpoint ∧
    (callReplicateEndpoint "owner/name:abc").version ≠ some "abc" := by
  refine ⟨rfl, ?_, ?_⟩ <;> decide

/-- C3 (amended): any identifier containing a slash (the namespace/name and
namespace/name:version forms alike) is posted to the model-specific
creation endpoint with no version in the body; an identifier without a
slash goes to the generic creation endpoint, with the text after the colon
as the body version when a colon is present, else the whole identifier. -/
theorem replicate_endpoint_selection (model : String) :
    (strHasChar model '/' = true →
       callReplicateEndpoint model =
         { url := "https://api.replicate.com/v1/models/" ++ model ++ "/predictions",
           version := none }) ∧
    (strHasChar model '/' = false → strHasChar model ':' = true →
       callReplicateEndpoint model =
         { url := genericEndpoint, version := some ((model.splitOn ":").getD 1 "") }) ∧
    (strHasChar model '/' = false → strHasChar model ':' = false →
       callReplicateEndpoint model = { url := genericEndpoint, version := some model }) := by
  refine ⟨?_, ?_, ?_⟩
  · intro h
    unfold callReplicateEndpoint
    rw [if_pos h]
  · intro h1 h2
    unfold callReplicateEndpoint
    rw [if_neg (by simp [h1]), if_pos h2]
  · intro h1 h2
    unfold callReplicateEndpoint
    rw [if_neg (by simp [h1]), if_neg (by simp [h2])]

/-- C1 counterexample: a caller-requested quantity of 0 passes the route
clamp Math.min(0, 4) = 0 unchanged, so 0 is sent as num_images to the
polling provider and the Gemini path makes 0 per-image calls, outside the
inclusive range 1 to 4 the claim states. -/
theorem route_quantity_zero_cex :
    numImagesSent 0 = 0 ∧ ¬(1 ≤ numImagesSent 0 ∧ numImagesSent 0 ≤ 4) ∧
    geminiCallCount 0 = 0 ∧ numImagesSent (-3) = -3 := by
  refine ⟨rfl, by decide, rfl, rfl⟩

/-- C1 (amended): the routes clamp the requested quantity from above at 4
(a request of 10 sends 4) but not from below: a request of at least 1 stays
in the range 1 to 4 for every provider, while 0 and negative requests pass
through unclamped to the polling provider num_images field and the Gemini
per-image loop; only the direct-animation path coerces 0 (but not negative
values) to 1 via its JS or-default. -/
theorem route_quantity_clamp (requested : Int) :
    numImagesSent requested ≤ 4 ∧
    geminiCallCount requested ≤ 4 ∧
    directAnimationSheetCount requested ≤ 4 ∧
    (1 ≤ requested →
      1 ≤ numImagesSent requested ∧
      1 ≤ geminiCallCount requested ∧
      1 ≤ directAnimationSheetCount requested) ∧
    numImagesSent 10 = 4 ∧
    directAnimationSheetCount 0 = 1 := by
  unfold numImagesSent geminiCallCount directAnimationSheetCount mkRdPlusInput routeQuantity jsIntOr
  simp only []
  by_cases h0 : (min requested 4) = 0
  · simp [h0]
    omega
  · have hb : ((min requested 4) == 0) = false := by
      simp [h0]
    simp only [hb, Bool.false_eq_true, if_false]
    refine ⟨?_, ?_, ?_, ?_, by decide, by decide⟩ <;> omega

/-- C9: preset lookup by id returns the exact catalog entry; in particular
four_angle_walking has frameCount 16 and 48x48 frames; and for any id not
in the catalog, generateSpritesheet fails with the invalid-preset message
without invoking the provider gateway (the run flag stays false). -/
theorem preset_lookup_and_unknown_id (params : SpritesheetParams) (env : CallEnv) (seed : Nat) :
    getAnimationPreset "four_angle_walking" =
      some { id := "four_angle_walking", name := "4-Direction Walking",
             description := "Consistent 4-direction, 4-frame walking animation for humanoid characters",
             style := "four_angle_walking", width := 48, height := 48,
             frameCount := 16, recommended := true } ∧
    (getAnimationPreset params.animationPresetId = none →
       (generateSpritesheet params env seed).2 = false ∧
       (generateSpritesheet params env seed).1.success = false ∧
       (generateSpritesheet params env seed).1.error =
         some ("Invalid animation preset: " ++ params.animationPresetId)) := by
  constructor
  · rfl
  · intro h
    unfold generateSpritesheet
    rw [h]
    exact ⟨rfl, rfl, rfl⟩

/-- The store of the C10 counterexample: one asset owned by alice. -/
def otherUserStore : String → Option AssetDoc :=
  fun i => if i = "a1" then some { user_id := "alice" } else none

/-- C10 counterexample: with the empty string as the caller user id, the
ownership check is skipped (userId is falsy), so findById returns an asset
whose stored user_id alice differs from the caller user id, where the
claim requires null. -/
theorem findById_empty_userId_cex :
    otherUserStore "a1" = some { user_id := "alice" } ∧
    ("alice" : String) ≠ "" ∧
    AssetService.findById otherUserStore "a1" "" = some ("a1", { user_id := "alice" }) := by
  refine ⟨rfl, by decide, rfl⟩

/-- C10 (amended): for every truthy (non-empty) caller user id, findById
returns null when the asset is missing or its stored user_id differs, and
update and delete then fail with Asset not found without touching the
store; with an empty caller user id the ownership check is skipped. -/
theorem findById_ownership_scope (store : String → Option AssetDoc)
    (id userId : String) (newName : Option String) :
    (store id = none → AssetService.findById store id userId = none) ∧
    (userId ≠ "" → ∀ d, store id = some d → d.user_id ≠ userId →
       AssetService.findById store id userId = none ∧
       AssetService.update store id userId newName = .error "Asset not found" ∧
       AssetService.delete store id userId = .error "Asset not found") := by
  constructor
  · intro h
    unfold AssetService.findById
    rw [h]
  · intro hu d hd hne
    have hue : userId.isEmpty = false := by
      cases he : userId.isEmpty
      · rfl
      · exact absurd ((String.isEmpty_iff userId).mp he) hu
    have hfind : AssetService.findById store id userId = none := by
      simp [AssetService.findById, hd, hue, bne_iff_ne, hne]
    refine ⟨hfind, ?_, ?_⟩
    · unfold AssetService.update
      rw [hfind]
    · unfold AssetService.delete
      rw [hfind]

/-- C7: for each of the six table entries, buildPrompt embeds exactly the
corresponding width x height pair in its dimensions sentence; for every
aspect ratio outside the table the sentence embeds 1024x1024; and the
dimensions sentence always occurs verbatim in the built prompt. -/
theorem buildPrompt_embeds_dimensions :
    (dimsPart "2:3" = "The image should be 688x1024 pixels (2:3 aspect ratio). " ∧
     dimsPart "1:1" = "The image should be 1024x1024 pixels (1:1 aspect ratio). " ∧
     dimsPart "9:16" = "The image should be 576x1024 pixels (9:16 aspect ratio). " ∧
     dimsPart "4:3" = "The image should be 1024x768 pixels (4:3 aspect ratio). " ∧
     dimsPart "3:2" = "The image should be 1024x688 pixels (3:2 aspect ratio). " ∧
     dimsPart "16:9" = "The image should be 1024x576 pixels (16:9 aspect ratio). ") ∧
    (∀ ar : String, ar ∉ (["2:3", "1:1", "9:16", "4:3", "3:2", "16:9"] : List String) →
       getImageDimensions ar = (1024, 1024) ∧
       dimsPart ar = "The image should be 1024x1024 pixels (" ++ ar ++ " aspect ratio). ") ∧
    (∀ params : GenParams,
       strContains (buildPrompt params) (dimsPart params.aspectRatio) = true) := by
  refine ⟨by decide, ?_, ?_⟩
  · intro ar h
    simp only [List.mem_cons, List.mem_singleton, not_or] at h
    obtain ⟨n1, n2, n3, n4, n5, n6⟩ := h
    have hg : getImageDimensions ar = (1024, 1024) := by
      simp [getImageDimensions, n1, n2, n3, n4, n5, n6]
    refine ⟨hg, ?_⟩
    simp only [dimsPart, hg]
    rfl
  · intro params
    unfold strContains
    rw [decide_eq_true_eq]
    unfold buildPrompt
    apply infix_data_right
    apply infix_data_right
    apply infix_data_right
    apply infix_data_right
    apply infix_data_left
    exact List.infix_refl _

/-- C6 (amended): a prompt containing one of the nine partial-body markers
(case-insensitively) suppresses the full-body clause: the builder emits the
empty string in its place, so the clause is never inserted (though the
built prompt can still contain the clause text when a caller-supplied field
such as the prompt itself carries it, see the counterexample); a prompt
with no marker, for a sprite whose subtype is not object, makes the builder
insert the clause, which then occurs verbatim in the built prompt. -/
theorem fullBody_clause_marker (p : GenParams) :
    (wantsPartialCharacter p.prompt = true → fullBodyPart p = "") ∧
    (wantsPartialCharacter p.prompt = false → p.type = "sprite" → p.spriteType ≠ "object" →
       fullBodyPart p = fullBodyClause ∧
       strContains (buildPrompt p) fullBodyClause = true) := by
  constructor
  · intro hw
    unfold fullBodyPart
    rw [if_neg]
    simp [hw]
  · intro hw ht ho
    have hfb : fullBodyPart p = fullBodyClause := by
      unfold fullBodyPart
      rw [if_pos]
      simp [hw, bne_iff_ne, ho]
    refine ⟨hfb, ?_⟩
    unfold strContains
    rw [decide_eq_true_eq]
    unfold buildPrompt
    apply infix_data_right
    apply infix_data_right
    apply infix_data_right
    apply infix_data_right
    apply infix_data_right
    apply infix_data_right
    apply infix_data_left
    unfold typePart
    rw [if_pos (by simp [ht])]
    apply infix_data_left
    rw [hfb]

/-- The adversarial parameters of the C6 counterexample: the prompt carries
both a partial-body marker and the literal full-body clause text. -/
def partialPromptParams : GenParams :=
  { prompt := "torso " ++ fullBodyClause }

/-- C6 counterexample: this prompt contains the marker torso, so the claim
requires the built prompt not to contain the full-body clause; but the raw
prompt is appended verbatim, so the built prompt does contain it. -/
theorem fullBody_clause_adversarial_cex :
    wantsPartialCharacter partialPromptParams.prompt = true ∧
    strContains (buildPrompt partialPromptParams) fullBodyClause = true := by
  constructor
  · decide
  · decide

/-! ## Lemmas toward the result-shape claim -/

/-- Appending to a nonempty string keeps it nonempty. -/
theorem append_left_ne_empty (a b : String) (ha : a ≠ "") : a ++ b ≠ "" := by
  intro h
  apply ha
  have hd := congrArg String.data h
  rw [String.data_append] at hd
  have hnil : a.data = [] := (List.append_eq_nil.mp hd).1
  cases a with
  | mk l => cases hnil; rfl

/-- A failed main generation job makes generateWithReplicate fail with the
provider-supplied error text or the generic message. -/
theorem generateWithReplicate_failed_job (params : GenParams) (env : GenEnv)
    (hok : env.genCall.createOk = true) (hst : env.genCall.terminal.status = "failed") :
    generateWithReplicate params env =
      { success := false, images := [], provider := some "replicate",
        error := some (strOrDefault env.genCall.terminal.error "Replicate generation failed") } := by
  have hcall : callReplicate env.genCall =
      .error (strOrDefault env.genCall.terminal.error "Replicate generation failed") := by
    unfold callReplicate
    rw [hok]
    simp [hst]
  unfold generateWithReplicate runGen generateWithReplicateE
  simp only [hcall]
  cases jsStrTruthy params.poseImage <;> simp [ensureNonEmptyImages]

/-- A returned ok of the emptiness guard is never empty. -/
theorem ensureNonEmptyImages_ok_ne_nil (m : Except String (List String))
    (imgs : List String) (h : ensureNonEmptyImages m = .ok imgs) :
    imgs ≠ [] := by
  unfold ensureNonEmptyImages at h
  split at h
  · exact absurd h (by simp)
  · rename_i images
    split at h
    · exact absurd h (by simp)
    · rename_i hemp
      obtain rfl : images = imgs := Except.ok.inj h
      simpa using hemp

/-- generateWithReplicate never reports success with an empty image list. -/
theorem generateWithReplicate_success_ne_nil (params : GenParams) (env : GenEnv)
    (h : (generateWithReplicate params env).success = true) :
    (generateWithReplicate params env).images ≠ [] := by
  unfold generateWithReplicate runGen at h ⊢
  cases hE : generateWithReplicateE params env with
  | error e => rw [hE] at h; simp at h
  | ok imgs =>
    have : imgs ≠ [] := ensureNonEmptyImages_ok_ne_nil _ imgs hE
    simpa using this

/-- generateWithGemini never reports success with an empty image list. -/
theorem generateWithGemini_success_ne_nil (params : GenParams) (resps : Nat → GeminiResp)
    (h : (generateWithGemini params resps).success = true) :
    (generateWithGemini params resps).images ≠ [] := by
  unfold generateWithGemini runGen at h ⊢
  cases hE : generateWithGeminiE params resps with
  | error e => rw [hE] at h; simp at h
  | ok imgs =>
    have : imgs ≠ [] := ensureNonEmptyImages_ok_ne_nil _ imgs hE
    simpa using this

/-- A failed frame job inside the per-frame loop surfaces as a thrown,
nonempty error (given that fetch failures also carry nonempty messages). -/
theorem replicateAnimLoop_failed (fetchData : String → Except String String)
    (jobs : Nat → FrameJob)
    (hf : ∀ u e, fetchData u = .error e → e ≠ "") :
    ∀ n i, (∃ j, i ≤ j ∧ j < i + n ∧ (jobs j).terminal.status = "failed") →
      ∃ e, replicateAnimLoop fetchData jobs n i = .error e ∧ e ≠ "" := by
  intro n
  induction n with
  | zero =>
    intro i hex
    obtain ⟨j, h1, h2, _⟩ := hex
    omega
  | succ m ih =>
    intro i hex
    obtain ⟨j, hij, hjn, hfail⟩ := hex
    by_cases hc : (jobs i).createOk = true
    · by_cases hs : ((jobs i).terminal.status == "failed") = true
      · refine ⟨"Frame " ++ toString (i + 1) ++ " generation failed", ?_, ?_⟩
        · simp only [replicateAnimLoop]
          simp [hc, hs]
        · exact append_left_ne_empty _ _ (append_left_ne_empty _ _ (by decide))
      · have hs' : ((jobs i).terminal.status == "failed") = false := by
          simpa using hs
        have hji : i < j := by
          rcases Nat.lt_or_ge i j with hlt | hge
          · exact hlt
          · have : j = i := by omega
            subst this
            exact absurd (by simp [hfail]) hs
        cases hh : animOutputHead (jobs i).terminal.output with
        | none =>
          obtain ⟨e, he, hne⟩ := ih (i + 1) ⟨j, by omega, by omega, hfail⟩
          refine ⟨e, ?_, hne⟩
          simp only [replicateAnimLoop]
          simp [hc, hs', hh, he]
        | some url =>
          cases hfd : fetchData url with
          | error e2 =>
            refine ⟨e2, ?_, hf url e2 hfd⟩
            simp only [replicateAnimLoop]
            simp [hc, hs', hh, hfd]
          | ok dataUrl =>
            obtain ⟨e, he, hne⟩ := ih (i + 1) ⟨j, by omega, by omega, hfail⟩
            refine ⟨e, ?_, hne⟩
            simp only [replicateAnimLoop]
            simp [hc, hs', hh, hfd, he]
    · refine ⟨"Replicate API error: " ++ toString (jobs i).createStatus, ?_,
        append_left_ne_empty _ _ (by decide)⟩
      simp only [replicateAnimLoop]
      simp [hc]

/-- A failed first sheet job makes the direct-animation loop fail with the
provider error text or the generic message. -/
theorem directAnimLoop_first_failed (calls : Nat → CallEnv)
    (fetchData : String → Except String String)
    (hok : (calls 0).createOk = true) (hst : (calls 0).terminal.status = "failed") :
    ∀ n, n ≠ 0 → directAnimLoop calls fetchData n 0 =
      .error (strOrDefault (calls 0).terminal.error "Replicate generation failed") := by
  intro n hn
  cases n with
  | zero => exact absurd rfl hn
  | succ m =>
    have hcall : callReplicate (calls 0) =
        .error (strOrDefault (calls 0).terminal.error "Replicate generation failed") := by
      unfold callReplicate
      rw [hok]
      simp [hst]
    simp only [directAnimLoop, hcall]

/-- C2 (amended): a provider job that reaches terminal failed status makes
the generation operations return success:false with a nonempty error
string (for the frame loop, under the assumption that fetch failures carry
nonempty messages); and generateImages never reports success:true with an
empty image list. The success-implies-nonempty half does not extend to
generateAnimationFrames or generateDirectAnimation: a succeeded job with no
usable output yields success:true with an empty sequence there (see the
counterexample). -/
theorem generation_result_shapes :
    (∀ (params : GenParams) (env : GenEnv),
       env.genCall.createOk = true → env.genCall.terminal.status = "failed" →
       (generateWithReplicate params env).success = false ∧
       ∃ e, (generateWithReplicate params env).error = some e ∧ e ≠ "") ∧
    (∀ (fetchData : String → Except String String) (jobs : Nat → FrameJob) (n : Nat),
       (∀ u e, fetchData u = .error e → e ≠ "") →
       (∃ j, j < n ∧ (jobs j).terminal.status = "failed") →
       (generateAnimationWithReplicate fetchData jobs n).success = false ∧
       ∃ e, (generateAnimationWithReplicate fetchData jobs n).error = some e ∧ e ≠ "") ∧
    (∀ (params : DirectAnimParams) (opts : GenOptions) (penv : PlatformEnv)
       (refineCall : CallEnv) (calls : Nat → CallEnv)
       (fetchData : String → Except String String),
       (calls 0).createOk = true → (calls 0).terminal.status = "failed" →
       (jsIntOr params.quantity 1).toNat ≠ 0 →
       (generateDirectAnimation params opts penv refineCall calls fetchData).success = false ∧
       ∃ e, (generateDirectAnimation params opts penv refineCall calls fetchData).error
              = some e ∧ e ≠ "") ∧
    (∀ (params : GenParams) (opts : GenOptions) (penv : PlatformEnv) (env : GenEnv)
       (gemini : Nat → GeminiResp),
       (generateImages params opts penv env gemini).success = true →
       (generateImages params opts penv env gemini).images ≠ []) := by
  refine ⟨?_, ?_, ?_, ?_⟩
  · intro params env hok hst
    rw [generateWithReplicate_failed_job params env hok hst]
    exact ⟨rfl, _, rfl, strOrDefault_ne_empty _ _ (by decide)⟩
  · intro fetchData jobs n hf hex
    obtain ⟨j, hj, hfail⟩ := hex
    obtain ⟨e, he, hne⟩ :=
      replicateAnimLoop_failed fetchData jobs hf n 0 ⟨j, Nat.zero_le j, by omega, hfail⟩
    unfold generateAnimationWithReplicate runFrames
    rw [he]
    exact ⟨rfl, e, rfl, hne⟩
  · intro params opts penv refineCall calls fetchData hok hst hq
    unfold generateDirectAnimation
    by_cases htok : jsStrTruthy (directAnimationToken opts penv) = true
    · rw [if_neg (by simp [htok])]
      unfold runGen generateDirectAnimationE
      rw [directAnimLoop_first_failed calls fetchData hok hst _ hq]
      exact ⟨rfl, _, rfl, strOrDefault_ne_empty _ _ (by decide)⟩
    · have htok' : jsStrTruthy (directAnimationToken opts penv) = false := by
        simpa using htok
      rw [if_pos (by simp [htok'])]
      exact ⟨rfl, _, rfl, by decide⟩
  · intro params opts penv env gemini h
    unfold generateImages at h ⊢
    cases hsel : selectProvider opts penv <;> rw [hsel] at h
    · exact generateWithGemini_success_ne_nil params gemini h
    · exact generateWithReplicate_success_ne_nil params env h
    · exact generateWithReplicate_success_ne_nil params env h
    · exact generateWithGemini_success_ne_nil params gemini h
    · simp [noKeyResult] at h

/-- C2 counterexample: a direct-animation run whose single provider job
succeeds with an empty output array returns success:true with an empty
images sequence, so success does not imply a non-empty sequence. -/
theorem direct_animation_empty_success_cex :
    generateDirectAnimation {} { apiKey := some "key", useOwnKey := true } {} {}
        (fun _ => { terminal := { status := "succeeded", output := .arr [] } })
        (fun _ => .ok "data") =
      { success := true, images := [], provider := some "replicate", error := none } := by
  rfl

/-- C4: generateImages picks the provider in the exact priority order of the
source: own credential with explicit provider gemini takes the Gemini
single-call path; any other own credential takes the polling provider with
that credential; else a configured platform Replicate token; else the
platform Gemini key when set and not the placeholder; else the constant
no-credential failure, which consults no provider environment. -/
theorem generateImages_provider_priority (opts : GenOptions) (penv : PlatformEnv)
    (params : GenParams) (env : GenEnv) (gemini : Nat → GeminiResp) :
    (opts.useOwnKey = true → jsStrTruthy opts.apiKey = true →
      opts.provider = some "gemini" →
       selectProvider opts penv = .geminiOwn ∧
       generateImages params opts penv env gemini = generateWithGemini params gemini) ∧
    (opts.useOwnKey = true → jsStrTruthy opts.apiKey = true →
      opts.provider ≠ some "gemini" →
       selectProvider opts penv = .replicateOwn ∧
       generateImages params opts penv env gemini = generateWithReplicate params env) ∧
    ((opts.useOwnKey = false ∨ jsStrTruthy opts.apiKey = false) →
      jsStrTruthy penv.replicateApiToken = true →
       selectProvider opts penv = .replicatePlatform ∧
       generateImages params opts penv env gemini = generateWithReplicate params env) ∧
    ((opts.useOwnKey = false ∨ jsStrTruthy opts.apiKey = false) →
      jsStrTruthy penv.replicateApiToken = false →
      jsStrTruthy penv.geminiApiKey = true →
      penv.geminiApiKey ≠ some "your_gemini_api_key_here" →
       selectProvider opts penv = .geminiPlatform ∧
       generateImages params opts penv env gemini = generateWithGemini params gemini) ∧
    ((opts.useOwnKey = false ∨ jsStrTruthy opts.apiKey = false) →
      jsStrTruthy penv.replicateApiToken = false →
      (jsStrTruthy penv.geminiApiKey = false ∨
        penv.geminiApiKey = some "your_gemini_api_key_here") →
       selectProvider opts penv = .noCredential ∧
       generateImages params opts penv env gemini = noKeyResult ∧
       noKeyResult.success = false ∧
       noKeyResult.error =
         some "No API key configured. Please add your own API key in settings or contact support.") := by
  have hone : ∀ c : ProviderChoice, selectProvider opts penv = c →
      generateImages params opts penv env gemini =
        (match c with
         | .geminiOwn => generateWithGemini params gemini
         | .replicateOwn => generateWithReplicate params env
         | .replicatePlatform => generateWithReplicate params env
         | .geminiPlatform => generateWithGemini params gemini
         | .noCredential => noKeyResult) := by
    intro c hc
    unfold generateImages
    rw [hc]
  refine ⟨?_, ?_, ?_, ?_, ?_⟩
  · intro h1 h2 h3
    have hsel : selectProvider opts penv = .geminiOwn := by
      unfold selectProvider
      rw [if_pos (by simp [h1, h2])]
      rw [if_pos (by simp [h3])]
    exact ⟨hsel, hone _ hsel⟩
  · intro h1 h2 h3
    have hsel : selectProvider opts penv = .replicateOwn := by
      unfold selectProvider
      rw [if_pos (by simp [h1, h2])]
      rw [if_neg (by simp [h3])]
    exact ⟨hsel, hone _ hsel⟩
  · intro h1 h2
    have hsel : selectProvider opts penv = .replicatePlatform := by
      unfold selectProvider
      rw [if_neg (by rcases h1 with h | h <;> simp [h])]
      rw [if_pos (by simp [h2])]
    exact ⟨hsel, hone _ hsel⟩
  · intro h1 h2 h3 h4
    have hsel : selectProvider opts penv = .geminiPlatform := by
      unfold selectProvider
      rw [if_neg (by rcases h1 with h | h <;> simp [h])]
      rw [if_neg (by simp [h2])]
      rw [if_pos (by simp [h3, bne_iff_ne, h4])]
    exact ⟨hsel, hone _ hsel⟩
  · intro h1 h2 h3
    have hsel : selectProvider opts penv = .noCredential := by
      unfold selectProvider
      rw [if_neg (by rcases h1 with h | h <;> simp [h])]
      rw [if_neg (by simp [h2])]
      rw [if_neg (by rcases h3 with h | h <;> simp [h, bne_iff_ne])]
    exact ⟨hsel, hone _ hsel, rfl, rfl⟩
